import Mathlib

/-!
Verification of the DFGLS unit-root test driver (`dfgls` in `dfgls.py`).

The core pipeline is embedded shallowly over `ℚ`:
validator → GLS quasi-differencing → auxiliary OLS → series adjustment →
ADF tau test → trend-case critical/p-value correction.

The external numerical collaborators (`OLS(...).fit().params`,
`adfuller`, `mackinnoncrit`, `mackinnonp`) are modelled as abstract
function parameters bundled in a `Collab` record, matching the spec's
treatment of them as external interfaces.  The driver itself is embedded
line by line from the source; a call log records every invocation of the
OLS and ADF collaborators so that "invoked exactly once, with these
arguments" is a provable statement.
-/

deriving instance DecidableEq for Except

namespace DFGLS

/-- A numpy-like array: a shape together with row-major flattened data.
`x.ndim` is `shape.length`; `np.reshape(x, (-1, 1))` leaves the flattened
data unchanged, so the pipeline works on `data` directly. -/
structure NDArray where
  shape : List ℕ
  data : List ℚ
deriving DecidableEq, Repr

/-- `x.ndim` of the numpy array. -/
def NDArray.ndim (x : NDArray) : ℕ := x.shape.length

/-- Result record of the ADF collaborator (`adfuller`), also the shape of
the value `dfgls` returns: `(stat, pvalue, usedlag, nobs, critvalues[, icbest])`.
`icbest` is `none` when the collaborator returned a 5-tuple (autolag off). -/
structure ADFResult where
  statistic : ℚ
  pValue : ℚ
  lagsUsed : ℕ
  observationsUsed : ℕ
  criticalValues : ℚ × ℚ × ℚ
  icbest : Option ℚ
deriving DecidableEq, Repr

/-- One recorded invocation of the ADF collaborator, with the exact
arguments `adfuller(series, regression, maxlag, autolag)` received. -/
structure ADFCall where
  series : List ℚ
  variant : String
  maxlag : Option ℕ
  autolag : Option String
deriving DecidableEq, Repr

/-- One recorded invocation of the OLS collaborator:
the `endog` vector and the `exog` matrix (as a list of rows). -/
structure OLSCall where
  endog : List ℚ
  exog : List (List ℚ)
deriving DecidableEq, Repr

/-- Log of collaborator invocations made during one `dfgls` call. -/
structure CallLog where
  olsCalls : List OLSCall
  adfCalls : List ADFCall
deriving DecidableEq, Repr

/-- The external collaborators consumed by the core, per spec section 6:
ordinary least squares, the ADF test, and the two MacKinnon surface models. -/
structure Collab where
  ols : List ℚ → List (List ℚ) → List ℚ
  adfuller : List ℚ → String → Option ℕ → Option String → ADFResult
  mackinnoncrit : ℕ → String → ℕ → ℚ × ℚ × ℚ
  mackinnonp : ℚ → String → ℕ → ℚ

/-- Lines 109-113: `alpha = 1 - (7 / x.shape[0])` for regression `c`,
`alpha = 1 - (13.5 / x.shape[0])` otherwise. -/
def alphaOf (regression : String) (n : ℕ) : ℚ :=
  if regression = "c" then 1 - 7 / (n : ℚ) else 1 - 13.5 / (n : ℚ)

/-- Lines 116-117: `endog = np.copy(x); endog[1:] -= alpha * endog[:-1]`.
numpy evaluates the right-hand side from the pre-update values, so
elementwise: `endog[0] = s[0]` and `endog[i] = s[i] - alpha * s[i-1]`
for `i ≥ 1`. -/
def quasiDiff (alpha : ℚ) (s : List ℚ) : List ℚ :=
  (List.range s.length).map fun i =>
    if i = 0 then s.getD 0 0 else s.getD i 0 - alpha * s.getD (i - 1) 0

/-- Row `i` of the exog matrix after lines 111/114 and 119-122:
column 0 is quasi-differenced ones (`1` at row 0, `1 - alpha` after);
for regression `ct` column 1 is the quasi-differenced 1-based index
(`1` at row 0, `(i+1) - alpha * i` after, since `t[i] = i + 1`). -/
def exogRow (regression : String) (alpha : ℚ) (i : ℕ) : List ℚ :=
  let c0 : ℚ := if i = 0 then 1 else 1 - alpha
  if regression = "ct" then
    [c0, if i = 0 then 1 else ((i : ℚ) + 1) - alpha * (i : ℚ)]
  else
    [c0]

/-- The full exog matrix of the auxiliary regression, as a list of rows. -/
def exogOf (regression : String) (alpha : ℚ) (n : ℕ) : List (List ℚ) :=
  (List.range n).map (exogRow regression alpha)

/-- Lines 127-129: `dtx = np.copy(x.reshape(n,)) - arc[0]` and, for `ct`,
`dtx -= arc[1] * np.arange(1, n + 1)`; elementwise
`dtx[i] = s[i] - arc[0]` (minus `arc[1] * (i+1)` in the trend case). -/
def detrend (regression : String) (arc : List ℚ) (s : List ℚ) : List ℚ :=
  (List.range s.length).map fun i =>
    let v := s.getD i 0 - arc.getD 0 0
    if regression = "ct" then v - arc.getD 1 0 * ((i : ℚ) + 1) else v

/-- Error message for a bad regression-type token (line 100). -/
def regressionErr : String := "DFGLS: regression option not understood"

/-- Error message for a bad series shape (line 104). -/
def shapeErr : String := "DFGLS: x must be a 1d array or a 2d array with a single column"

/-- The validator's rejection condition, line 103:
`x.ndim > 2 or (x.ndim == 2 and x.shape[1] != 1)`. -/
def badShape (x : NDArray) : Prop :=
  2 < x.ndim ∨ (x.ndim = 2 ∧ x.shape.getD 1 0 ≠ 1)

instance (x : NDArray) : Decidable (badShape x) := by
  unfold badShape; infer_instance

/-- The validated part of the driver, lines 106-138: quasi-differencing,
auxiliary OLS, detrending, the ADF call (regression fixed to `nc`,
`maxlag`/`autolag` forwarded), and the trend-case correction that
rebuilds the result list at lines 134-137 (note: `nobs = len(dtx)` is
passed to `mackinnoncrit`, and the rebuilt list has five elements, so
no `icbest`).  Returns the result and the collaborator-call log. -/
def dfglsRun (C : Collab) (s : List ℚ) (regression : String)
    (maxlag : Option ℕ) (autolag : Option String) : ADFResult × CallLog :=
  let n := s.length
  let alpha := alphaOf regression n
  let endog := quasiDiff alpha s
  let exog := exogOf regression alpha n
  let arc := C.ols endog exog
  let dtx := detrend regression arc s
  let res := C.adfuller dtx "nc" maxlag autolag
  let out : ADFResult :=
    if regression = "ct" then
      let cvs := C.mackinnoncrit 1 "c" dtx.length
      { statistic := res.statistic
        pValue := C.mackinnonp res.statistic "c" 1
        lagsUsed := res.lagsUsed
        observationsUsed := res.observationsUsed
        criticalValues := cvs
        icbest := none }
    else
      res
  (out, ⟨[⟨endog, exog⟩], [⟨dtx, "nc", maxlag, autolag⟩]⟩)

/-- The `dfgls` driver, embedded from lines 99-138, instrumented with a
log of the collaborator invocations it performs.  The straight-line
source makes exactly one OLS call (line 124) and one ADF call (line 132)
on the success path and none on the error paths. -/
def dfglsWithLog (C : Collab) (x : NDArray) (regression : String)
    (maxlag : Option ℕ) (autolag : Option String) :
    Except String ADFResult × CallLog :=
  if ¬(regression = "c" ∨ regression = "ct") then
    (Except.error regressionErr, ⟨[], []⟩)
  else if badShape x then
    (Except.error shapeErr, ⟨[], []⟩)
  else
    let r := dfglsRun C x.data regression maxlag autolag
    (Except.ok r.1, r.2)

/-- Public entry point: the returned value of `dfgls`. -/
def dfgls (C : Collab) (x : NDArray) (regression : String)
    (maxlag : Option ℕ) (autolag : Option String) : Except String ADFResult :=
  (dfglsWithLog C x regression maxlag autolag).1

/-- Validity of the arguments: the complement of the two `ValueError`
checks on lines 99-105. -/
def validArgs (x : NDArray) (regression : String) : Prop :=
  (regression = "c" ∨ regression = "ct") ∧ ¬ badShape x

instance (x : NDArray) (r : String) : Decidable (validArgs x r) := by
  unfold validArgs; infer_instance

/-- A concrete instantiation of the collaborators, used to evaluate the
driver on closed inputs: the OLS stub returns zero coefficients, the ADF
stub reports `lagsUsed = 0` and `observationsUsed = n - 1` (as `adfuller`
does when zero lagged differences are used), and the critical-value stub
records the `nobs` argument it received in its first component, while the
p-value stub passes the statistic through. -/
def constCollab : Collab where
  ols _ _ := [0, 0]
  adfuller s _ _ _ :=
    { statistic := 5, pValue := 7, lagsUsed := 0,
      observationsUsed := s.length - 1, criticalValues := (0, 0, 0),
      icbest := some 42 }
  mackinnoncrit _ _ nobs := ((nobs : ℚ), 0, 0)
  mackinnonp stat _ _ := stat

/-- Evaluating an index-built list at an in-range index. -/
theorem getD_range_map {β : Type} (f : ℕ → β) (d : β) (n i : ℕ) (h : i < n) :
    (((List.range n).map f).getD i d) = f i := by
  rw [List.getD_eq_getElem?_getD, List.getElem?_map, List.getElem?_range h]
  rfl

/-- On valid arguments the driver runs the straight-line pipeline. -/
theorem dfglsWithLog_valid (C : Collab) (x : NDArray) (regression : String)
    (maxlag : Option ℕ) (autolag : Option String) (hv : validArgs x regression) :
    dfglsWithLog C x regression maxlag autolag =
      (Except.ok (dfglsRun C x.data regression maxlag autolag).1,
       (dfglsRun C x.data regression maxlag autolag).2) := by
  unfold dfglsWithLog
  rw [if_neg (not_not_intro hv.1), if_neg hv.2]

/-- Detrending preserves the series length. -/
theorem detrend_length (regression : String) (arc s : List ℚ) :
    (detrend regression arc s).length = s.length := by
  simp [detrend]

/-- Sample valid input used to instantiate witnesses: a 1-d series of
length 3. -/
def sampleX : NDArray := ⟨[3], [1, 2, 3]⟩

/-- C3: on a valid call the endog vector handed to the OLS collaborator is
the series quasi-differenced with `alphaOf regression n`, and that
parameter equals `1 - 7/n` for constant-only and `1 - 13.5/n` for
constant-and-trend, with `n` the full flattened series length. -/
theorem alpha_used_for_quasi_differencing (C : Collab) (x : NDArray) (r : String)
    (m : Option ℕ) (a : Option String) (hv : validArgs x r) (_hn : 0 < x.data.length) :
    (dfglsWithLog C x r m a).2.olsCalls.map OLSCall.endog
        = [quasiDiff (alphaOf r x.data.length) x.data] ∧
    alphaOf "c" x.data.length = 1 - 7 / (x.data.length : ℚ) ∧
    alphaOf "ct" x.data.length = 1 - 13.5 / (x.data.length : ℚ) := by
  refine ⟨?_, by rw [alphaOf, if_pos rfl], by rw [alphaOf, if_neg (by decide)]⟩
  rw [dfglsWithLog_valid C x r m a hv]
  rfl

/-- Witness for C3 at a concrete valid input. -/
theorem alpha_used_for_quasi_differencing_witness :
    validArgs sampleX "ct" ∧ 0 < sampleX.data.length ∧
    ((dfglsWithLog constCollab sampleX "ct" none (some "AIC")).2.olsCalls.map OLSCall.endog
        = [quasiDiff (alphaOf "ct" sampleX.data.length) sampleX.data] ∧
     alphaOf "c" sampleX.data.length = 1 - 7 / (sampleX.data.length : ℚ) ∧
     alphaOf "ct" sampleX.data.length = 1 - 13.5 / (sampleX.data.length : ℚ)) :=
  ⟨by decide, by decide,
   alpha_used_for_quasi_differencing constCollab sampleX "ct" none (some "AIC")
     (by decide) (by decide)⟩

/-- C4: the auxiliary regression inputs logged by a valid call are exactly
`(quasiDiff α s, exogOf r α n)`; elementwise, `endog[0] = s[0]` and
`endog[i] = s[i] - α·s[i-1]` for `i ≥ 1`, the first exog column is `1`
then `1 - α`, and for the trend design the second column is `1` then
`(i+1) - α·i` (the quasi-differenced 1-based index). -/
theorem aux_regression_inputs (C : Collab) (x : NDArray) (r : String)
    (m : Option ℕ) (a : Option String) (i : ℕ)
    (hv : validArgs x r) (hi : i < x.data.length) :
    (dfglsWithLog C x r m a).2.olsCalls
        = [⟨quasiDiff (alphaOf r x.data.length) x.data,
            exogOf r (alphaOf r x.data.length) x.data.length⟩] ∧
    (quasiDiff (alphaOf r x.data.length) x.data).getD i 0
        = (if i = 0 then x.data.getD 0 0
           else x.data.getD i 0 - alphaOf r x.data.length * x.data.getD (i - 1) 0) ∧
    ((exogOf r (alphaOf r x.data.length) x.data.length).getD i []).getD 0 0
        = (if i = 0 then 1 else 1 - alphaOf r x.data.length) ∧
    ((exogOf "ct" (alphaOf "ct" x.data.length) x.data.length).getD i []).getD 1 0
        = (if i = 0 then 1 else ((i : ℚ) + 1) - alphaOf "ct" x.data.length * (i : ℚ)) := by
  refine ⟨?_, ?_, ?_, ?_⟩
  · rw [dfglsWithLog_valid C x r m a hv]
    rfl
  · unfold quasiDiff
    exact getD_range_map _ _ _ _ hi
  · unfold exogOf
    rw [getD_range_map _ _ _ _ hi]
    unfold exogRow
    by_cases hr : r = "ct" <;> by_cases hz : i = 0 <;> simp [hr, hz]
  · unfold exogOf
    rw [getD_range_map _ _ _ _ hi]
    unfold exogRow
    rw [if_pos rfl]
    rfl

/-- Witness for C4 at a concrete valid input and index. -/
theorem aux_regression_inputs_witness :
    validArgs sampleX "ct" ∧ 1 < sampleX.data.length ∧
    ((dfglsWithLog constCollab sampleX "ct" none (some "AIC")).2.olsCalls
        = [⟨quasiDiff (alphaOf "ct" sampleX.data.length) sampleX.data,
            exogOf "ct" (alphaOf "ct" sampleX.data.length) sampleX.data.length⟩] ∧
     (quasiDiff (alphaOf "ct" sampleX.data.length) sampleX.data).getD 1 0
        = (if 1 = 0 then sampleX.data.getD 0 0
           else sampleX.data.getD 1 0
                - alphaOf "ct" sampleX.data.length * sampleX.data.getD (1 - 1) 0) ∧
     ((exogOf "ct" (alphaOf "ct" sampleX.data.length) sampleX.data.length).getD 1 []).getD 0 0
        = (if 1 = 0 then 1 else 1 - alphaOf "ct" sampleX.data.length) ∧
     ((exogOf "ct" (alphaOf "ct" sampleX.data.length) sampleX.data.length).getD 1 []).getD 1 0
        = (if 1 = 0 then 1 else ((1 : ℚ) + 1) - alphaOf "ct" sampleX.data.length * (1 : ℚ))) :=
  ⟨by decide, by decide,
   aux_regression_inputs constCollab sampleX "ct" none (some "AIC") 1
     (by decide) (by decide)⟩

/-- C5: the series logged as the ADF argument is `detrend r arc s` with
`arc` the OLS output; elementwise, detrending subtracts `arc[0]` and,
under the trend design, additionally `arc[1]·(i+1)` with a 1-based time
index, always from the original series values. -/
theorem adjusted_series (C : Collab) (x : NDArray) (r : String)
    (m : Option ℕ) (a : Option String) (arc : List ℚ) (i : ℕ)
    (hv : validArgs x r) (hi : i < x.data.length) :
    (dfglsWithLog C x r m a).2.adfCalls.map ADFCall.series
        = [detrend r (C.ols (quasiDiff (alphaOf r x.data.length) x.data)
            (exogOf r (alphaOf r x.data.length) x.data.length)) x.data] ∧
    (detrend "c" arc x.data).getD i 0 = x.data.getD i 0 - arc.getD 0 0 ∧
    (detrend "ct" arc x.data).getD i 0
        = x.data.getD i 0 - arc.getD 0 0 - arc.getD 1 0 * ((i : ℚ) + 1) := by
  refine ⟨?_, ?_, ?_⟩
  · rw [dfglsWithLog_valid C x r m a hv]
    rfl
  · unfold detrend
    rw [getD_range_map _ _ _ _ hi]
    rfl
  · unfold detrend
    rw [getD_range_map _ _ _ _ hi]
    rfl

/-- Witness for C5 at a concrete valid input, coefficient vector and index. -/
theorem adjusted_series_witness :
    validArgs sampleX "ct" ∧ 1 < sampleX.data.length ∧
    ((dfglsWithLog constCollab sampleX "ct" none (some "AIC")).2.adfCalls.map ADFCall.series
        = [detrend "ct" (constCollab.ols (quasiDiff (alphaOf "ct" sampleX.data.length) sampleX.data)
            (exogOf "ct" (alphaOf "ct" sampleX.data.length) sampleX.data.length)) sampleX.data] ∧
     (detrend "c" [4, 5] sampleX.data).getD 1 0 = sampleX.data.getD 1 0 - [(4 : ℚ), 5].getD 0 0 ∧
     (detrend "ct" [4, 5] sampleX.data).getD 1 0
        = sampleX.data.getD 1 0 - [(4 : ℚ), 5].getD 0 0
          - [(4 : ℚ), 5].getD 1 0 * ((1 : ℚ) + 1)) :=
  ⟨by decide, by decide,
   adjusted_series constCollab sampleX "ct" none (some "AIC") [4, 5] 1
     (by decide) (by decide)⟩

/-- C6: a valid call invokes the ADF collaborator exactly once, on the
adjusted series, with the regression variant fixed to `nc` and the
caller's `maxlag` and `autolag` forwarded verbatim; and for
constant-only regression the collaborator's entire output is the
returned result, unchanged. -/
theorem adf_invocation (C : Collab) (x : NDArray) (r : String)
    (m : Option ℕ) (a : Option String) (hv : validArgs x r) :
    (dfglsWithLog C x r m a).2.adfCalls
        = [⟨detrend r (C.ols (quasiDiff (alphaOf r x.data.length) x.data)
              (exogOf r (alphaOf r x.data.length) x.data.length)) x.data, "nc", m, a⟩] ∧
    dfgls C x "c" m a = Except.ok
      (C.adfuller (detrend "c" (C.ols (quasiDiff (alphaOf "c" x.data.length) x.data)
          (exogOf "c" (alphaOf "c" x.data.length) x.data.length)) x.data) "nc" m a) := by
  constructor
  · rw [dfglsWithLog_valid C x r m a hv]
    rfl
  · rw [dfgls, dfglsWithLog_valid C x "c" m a ⟨Or.inl rfl, hv.2⟩]
    rfl

/-- Witness for C6 at a concrete valid input. -/
theorem adf_invocation_witness :
    validArgs sampleX "ct" ∧
    ((dfglsWithLog constCollab sampleX "ct" none (some "AIC")).2.adfCalls
        = [⟨detrend "ct" (constCollab.ols (quasiDiff (alphaOf "ct" sampleX.data.length) sampleX.data)
              (exogOf "ct" (alphaOf "ct" sampleX.data.length) sampleX.data.length)) sampleX.data,
            "nc", none, some "AIC"⟩] ∧
     dfgls constCollab sampleX "c" none (some "AIC") = Except.ok
       (constCollab.adfuller (detrend "c" (constCollab.ols
           (quasiDiff (alphaOf "c" sampleX.data.length) sampleX.data)
           (exogOf "c" (alphaOf "c" sampleX.data.length) sampleX.data.length)) sampleX.data)
         "nc" none (some "AIC"))) :=
  ⟨by decide, adf_invocation constCollab sampleX "ct" none (some "AIC") (by decide)⟩

/-- C1 counterexample: with a collaborator whose critical-value surface
reports the `nobs` argument it received, a length-3 trend-case call
yields `criticalValues = (3, 0, 0)` — the surface evaluated at the full
series length — while the surface at `nobs = observationsUsed = 2`
yields `(2, 0, 0)`; the claim as stated is therefore false. -/
theorem trend_correction_nobs_counterexample :
    dfgls constCollab sampleX "ct" none (some "AIC") = Except.ok
      { statistic := 5, pValue := 5, lagsUsed := 0, observationsUsed := 2,
        criticalValues := ((3 : ℚ), (0 : ℚ), (0 : ℚ)), icbest := none } ∧
    constCollab.mackinnoncrit 1 "c" 2 = ((2 : ℚ), (0 : ℚ), (0 : ℚ)) ∧
    ((3 : ℚ), (0 : ℚ), (0 : ℚ)) ≠ ((2 : ℚ), (0 : ℚ), (0 : ℚ)) :=
  ⟨rfl, rfl, by decide⟩

/-- C1 as amended: for the trend case the returned `pValue` and
`criticalValues` are the MacKinnon surfaces with `numSeries = 1` and
regression variant `c`, the critical values evaluated at `nobs` equal to
the FULL adjusted-series length `n` (not the collaborator's
`observationsUsed`), the p-value at the collaborator's statistic; the
raw ADF collaborator p-value and critical values are discarded. -/
theorem trend_correction_amended (C : Collab) (x : NDArray)
    (m : Option ℕ) (a : Option String) (hv : validArgs x "ct") :
    dfgls C x "ct" m a = Except.ok
      { statistic := (C.adfuller (detrend "ct" (C.ols
            (quasiDiff (alphaOf "ct" x.data.length) x.data)
            (exogOf "ct" (alphaOf "ct" x.data.length) x.data.length)) x.data) "nc" m a).statistic
        pValue := C.mackinnonp ((C.adfuller (detrend "ct" (C.ols
            (quasiDiff (alphaOf "ct" x.data.length) x.data)
            (exogOf "ct" (alphaOf "ct" x.data.length) x.data.length)) x.data) "nc" m a).statistic) "c" 1
        lagsUsed := (C.adfuller (detrend "ct" (C.ols
            (quasiDiff (alphaOf "ct" x.data.length) x.data)
            (exogOf "ct" (alphaOf "ct" x.data.length) x.data.length)) x.data) "nc" m a).lagsUsed
        observationsUsed := (C.adfuller (detrend "ct" (C.ols
            (quasiDiff (alphaOf "ct" x.data.length) x.data)
            (exogOf "ct" (alphaOf "ct" x.data.length) x.data.length)) x.data) "nc" m a).observationsUsed
        criticalValues := C.mackinnoncrit 1 "c" x.data.length
        icbest := none } := by
  rw [dfgls, dfglsWithLog_valid C x "ct" m a hv]
  simp only [dfglsRun, detrend_length]
  rfl

/-- Witness for the amended C1 at a concrete valid input. -/
theorem trend_correction_amended_witness :
    validArgs sampleX "ct" ∧
    dfgls constCollab sampleX "ct" none (some "AIC") = Except.ok
      { statistic := (constCollab.adfuller (detrend "ct" (constCollab.ols
            (quasiDiff (alphaOf "ct" sampleX.data.length) sampleX.data)
            (exogOf "ct" (alphaOf "ct" sampleX.data.length) sampleX.data.length)) sampleX.data)
            "nc" none (some "AIC")).statistic
        pValue := constCollab.mackinnonp ((constCollab.adfuller (detrend "ct" (constCollab.ols
            (quasiDiff (alphaOf "ct" sampleX.data.length) sampleX.data)
            (exogOf "ct" (alphaOf "ct" sampleX.data.length) sampleX.data.length)) sampleX.data)
            "nc" none (some "AIC")).statistic) "c" 1
        lagsUsed := (constCollab.adfuller (detrend "ct" (constCollab.ols
            (quasiDiff (alphaOf "ct" sampleX.data.length) sampleX.data)
            (exogOf "ct" (alphaOf "ct" sampleX.data.length) sampleX.data.length)) sampleX.data)
            "nc" none (some "AIC")).lagsUsed
        observationsUsed := (constCollab.adfuller (detrend "ct" (constCollab.ols
            (quasiDiff (alphaOf "ct" sampleX.data.length) sampleX.data)
            (exogOf "ct" (alphaOf "ct" sampleX.data.length) sampleX.data.length)) sampleX.data)
            "nc" none (some "AIC")).observationsUsed
        criticalValues := constCollab.mackinnoncrit 1 "c" sampleX.data.length
        icbest := none } :=
  ⟨by decide, trend_correction_amended constCollab sampleX none (some "AIC") (by decide)⟩

/-- C2 failing input: the ADF collaborator returned
`icbest = some 42` (autolag in use), yet the trend-case result rebuilt at
lines 136-137 carries no `icbest` — the five-element list drops it,
contradicting the docstring, which promises `icbest` whenever autolag is
used.  The statistic, lag count and observation count do pass through. -/
theorem trend_icbest_dropped :
    (constCollab.adfuller (detrend "ct" (constCollab.ols
        (quasiDiff (alphaOf "ct" 3) [1, 2, 3])
        (exogOf "ct" (alphaOf "ct" 3) 3)) [1, 2, 3]) "nc" none (some "AIC")).icbest
      = some 42 ∧
    dfgls constCollab sampleX "ct" none (some "AIC") = Except.ok
      { statistic := 5, pValue := 5, lagsUsed := 0, observationsUsed := 2,
        criticalValues := ((3 : ℚ), (0 : ℚ), (0 : ℚ)), icbest := none } :=
  ⟨rfl, rfl⟩

/-- C7: a bad regression token, more than two dimensions, or two
dimensions with more than one column make `dfgls` fail with the
corresponding `ValueError` before any computation: the result carries an
error message depending only on the arguments checked, the collaborators
are never consulted, and the call log is empty. -/
theorem invalid_args_rejected (C : Collab) (x : NDArray) (r : String)
    (m : Option ℕ) (a : Option String)
    (h : ¬(r = "c" ∨ r = "ct") ∨ 2 < x.ndim ∨ (x.ndim = 2 ∧ 1 < x.shape.getD 1 0)) :
    dfglsWithLog C x r m a =
      (Except.error (if r = "c" ∨ r = "ct" then shapeErr else regressionErr),
       ⟨[], []⟩) := by
  by_cases hr : r = "c" ∨ r = "ct"
  · have hbad : badShape x := by
      rcases h with h1 | h2 | h3
      · exact absurd hr h1
      · exact Or.inl h2
      · exact Or.inr ⟨h3.1, ne_of_gt h3.2⟩
    unfold dfglsWithLog
    rw [if_neg (not_not_intro hr), if_pos hbad, if_pos hr]
  · unfold dfglsWithLog
    rw [if_pos hr, if_neg hr]

/-- Witness for C7 at a concrete invalid regression token. -/
theorem invalid_args_rejected_witness :
    (¬(("nc" : String) = "c" ∨ ("nc" : String) = "ct") ∨ 2 < sampleX.ndim ∨
      (sampleX.ndim = 2 ∧ 1 < sampleX.shape.getD 1 0)) ∧
    dfglsWithLog constCollab sampleX "nc" none (some "AIC") =
      (Except.error (if ("nc" : String) = "c" ∨ ("nc" : String) = "ct"
        then shapeErr else regressionErr), ⟨[], []⟩) :=
  ⟨by decide, invalid_args_rejected constCollab sampleX "nc" none (some "AIC") (by decide)⟩

/-- The mutable buffers alive during one validated call: the caller's
series buffer (the target of the `np.reshape` view of line 106) and the
locally allocated arrays.  Each numpy statement of lines 106-129 is a
step `Buffers → Buffers` writing only the buffer it targets; `np.copy`
reads `callerBuf` and writes a local. -/
structure Buffers where
  callerBuf : List ℚ
  endog : List ℚ
  exogCol0 : List ℚ
  exogCol1 : List ℚ
  dtx : List ℚ
deriving DecidableEq, Repr

/-- Lines 111/114: `exog = np.ones(...)` — freshly allocated columns. -/
def stepInitExog (b : Buffers) : Buffers :=
  { b with exogCol0 := List.replicate b.callerBuf.length 1,
           exogCol1 := List.replicate b.callerBuf.length 1 }

/-- Line 116: `endog = np.copy(x)` — reads the caller buffer, writes a
fresh `endog`. -/
def stepCopyEndog (b : Buffers) : Buffers := { b with endog := b.callerBuf }

/-- Line 117: `endog[1:] -= alpha * endog[:-1]` — in place on `endog`,
right-hand side taken from the pre-update values. -/
def stepQdEndog (alpha : ℚ) (b : Buffers) : Buffers :=
  { b with endog := quasiDiff alpha b.endog }

/-- Line 119: `exog[1:, 0] -= alpha` — in place on the first column. -/
def stepExogCol0 (alpha : ℚ) (b : Buffers) : Buffers :=
  { b with exogCol0 := (List.range b.exogCol0.length).map fun i =>
      if i = 0 then b.exogCol0.getD 0 0 else b.exogCol0.getD i 0 - alpha }

/-- Line 121: `exog[1:, 1] = np.arange(2, n + 1)` — in place on the
second column, leaving row 0 at its initial one. -/
def stepExogCol1Assign (b : Buffers) : Buffers :=
  { b with exogCol1 := (List.range b.exogCol1.length).map fun i =>
      if i = 0 then b.exogCol1.getD 0 0 else (i : ℚ) + 1 }

/-- Line 122: `exog[1:, 1] -= alpha * exog[:-1, 1]` — in place on the
second column, right-hand side from the pre-update values. -/
def stepExogCol1Qd (alpha : ℚ) (b : Buffers) : Buffers :=
  { b with exogCol1 := quasiDiff alpha b.exogCol1 }

/-- Assemble the exog columns into the row matrix handed to OLS. -/
def zipCols (regression : String) (c0 c1 : List ℚ) : List (List ℚ) :=
  if regression = "ct" then List.zipWith (fun u v => [u, v]) c0 c1
  else c0.map fun u => [u]

/-- Lines 127-129: `dtx = np.copy(x.reshape(n,)) - arc[0]` and, for the
trend case, `dtx -= arc[1] * np.arange(1, n + 1)` — reads the caller
buffer through `np.copy`, then mutates only `dtx`. -/
def stepDtx (regression : String) (arc : List ℚ) (b : Buffers) : Buffers :=
  { b with dtx := detrend regression arc b.callerBuf }

/-- The buffer-level pipeline of lines 106-129 for a validated call, in
source order; `s` is the caller's buffer as first seen by the core. -/
def runPipeline (C : Collab) (regression : String) (s : List ℚ) : Buffers :=
  let b0 : Buffers := ⟨s, [], [], [], []⟩
  let alpha := alphaOf regression s.length
  let b1 := stepInitExog b0
  let b2 := stepQdEndog alpha (stepCopyEndog b1)
  let b3 := stepExogCol0 alpha b2
  let b4 := if regression = "ct" then stepExogCol1Qd alpha (stepExogCol1Assign b3) else b3
  let arc := C.ols b4.endog (zipCols regression b4.exogCol0 b4.exogCol1)
  stepDtx regression arc b4

/-- C8: after the whole pipeline the caller's buffer is unchanged — every
in-place statement targets a locally allocated copy — and the
quasi-differencing indeed ran on a copy of the caller's data (the final
`endog` is the quasi-differenced original series). -/
theorem caller_buffer_unchanged (C : Collab) (r : String) (s : List ℚ) :
    (runPipeline C r s).callerBuf = s ∧
    (runPipeline C r s).endog = quasiDiff (alphaOf r s.length) s := by
  unfold runPipeline stepDtx stepExogCol1Qd stepExogCol1Assign stepExogCol0
    stepQdEndog stepCopyEndog stepInitExog
  by_cases hr : r = "ct" <;> simp [hr]

/-- C9: the driver is deterministic — two calls with identical
collaborators and identical arguments return identical results. -/
theorem dfgls_deterministic (C D : Collab) (x y : NDArray) (r q : String)
    (m p : Option ℕ) (a b : Option String)
    (hCD : C = D) (hxy : x = y) (hrq : r = q) (hmp : m = p) (hab : a = b) :
    dfgls C x r m a = dfgls D y q p b := by
  subst hCD hxy hrq hmp hab
  rfl

/-- Witness for C9 at concrete identical argument lists. -/
theorem dfgls_deterministic_witness :
    constCollab = constCollab ∧ sampleX = sampleX ∧
    dfgls constCollab sampleX "c" none (some "AIC")
      = dfgls constCollab sampleX "c" none (some "AIC") :=
  ⟨rfl, rfl,
   dfgls_deterministic constCollab constCollab sampleX sampleX "c" "c"
     none none (some "AIC") (some "AIC") rfl rfl rfl rfl rfl⟩

/-- C10: a two-dimensional series with zero columns is rejected with the
shape `ValueError` under both regression types, since the validator
rejects any two-dimensional input whose column count differs from one. -/
theorem zero_column_rejected (C : Collab) (k : ℕ) (data : List ℚ)
    (m : Option ℕ) (a : Option String) :
    dfgls C ⟨[k, 0], data⟩ "c" m a = Except.error shapeErr ∧
    dfgls C ⟨[k, 0], data⟩ "ct" m a = Except.error shapeErr := by
  have hbad : badShape ⟨[k, 0], data⟩ := Or.inr ⟨rfl, (by decide : (0 : ℕ) ≠ 1)⟩
  constructor
  · unfold dfgls dfglsWithLog
    rw [if_neg (not_not_intro (Or.inl rfl)), if_pos hbad]
  · unfold dfgls dfglsWithLog
    rw [if_neg (not_not_intro (Or.inr rfl)), if_pos hbad]

end DFGLS
